import Mathlib

/-!
Verification of the simplesat benchmarking harness (`src/bench/runner.py`).

The script is modelled by a shallow embedding.  The host environment
(filesystem contents, platform identity, child-process behaviour) is a
structure `Env`; the Python functions `get_executable_path`, `solve` and
`main` become Lean functions over `Env`.  Python exceptions (the two
`assert` statements; an uncaught `AssertionError` terminates the process
with a non-zero exit status) become `Except`-style error results that
abort the run loop.  The buffered text file opened by
`output_file.open('w')` is modelled by `PyFile`: writes go to an
in-memory block buffer that is written out to the visible file contents
when it overflows (CPython's layered text/binary buffering is collapsed
into one block buffer of `io.DEFAULT_BUFFER_SIZE` bytes) or when the
file object is closed; the script never calls `flush`, and `with`
closes the file on every exit path.
-/

namespace Bench

/-- One CSV row: `(instance_path_as_posix, second_column_string)`. -/
abbrev Row := String × String

/-- The host environment the script runs against.

* `isFile p` models `Path(p).is_file()`.
* `dirListing d` models the directory entries seen by `Path(d).glob`;
  `none` models a missing or unreadable directory, for which
  `pathlib`'s glob machinery silently yields no entries
  (`_Selector.select_from` returns an empty iterator when
  `is_dir` is false, and `_select_from` swallows `PermissionError`).
* `system` models `platform.system()`.
* `childNs f` models the wall-clock nanoseconds from just before
  launching the child on instance `f` (the `time.perf_counter_ns()`
  call) to just after it exits; `none` models a child that never
  exits.  Measurement overhead is ignored: the same quantity drives
  the timeout check and the reported duration.
* `childExit f` models the child's exit status on instance `f`;
  the script never reads it (`subprocess.run` is called without
  `check=True` and the returned object is discarded). -/
structure Env where
  isFile : String → Bool
  dirListing : String → Option (List String)
  system : String
  childNs : String → Option Nat
  childExit : String → Int

/-- `TIMEOUT = timedelta(seconds=30)`; the script passes
`TIMEOUT.seconds`, which is `30`, to `subprocess.run`. -/
def TIMEOUT_seconds : Nat := 30

/-- `SOLVER_BINARY = Path("../target/release/simplesat")`. -/
def SOLVER_BINARY : String := "../target/release/simplesat"

/-- `get_executable_path()`: on Windows, `with_suffix(".exe")` (the name
`simplesat` has no suffix, so this appends `.exe`); otherwise the bare
path. -/
def get_executable_path (system : String) : String :=
  if system = "Windows" then SOLVER_BINARY ++ ".exe" else SOLVER_BINARY

/-- `subprocess.run([...], timeout=timeoutS, ...)`: if the child exits
after `n` nanoseconds with `n` below the deadline, the call returns
normally after `n` nanoseconds; otherwise `TimeoutExpired` is raised
(modelled as `none`). -/
def runWithTimeout (behaviorNs : Option Nat) (timeoutS : Nat) : Option Nat :=
  match behaviorNs with
  | none => none
  | some n => if n < timeoutS * 1000000000 then some n else none

/-- The value `solve` returns when neither assertion fires:
`(time.perf_counter_ns() - start) // 1_000_000` on normal exit
(floor division of the nanosecond difference), `None` on
`TimeoutExpired`. -/
def timingOf (env : Env) (instance_file : String) : Option Nat :=
  match runWithTimeout (env.childNs instance_file) TIMEOUT_seconds with
  | none => none
  | some ns => some (ns / 1000000)

/-- The exceptions that can escape `solve`: the two `assert` statements. -/
inductive RunError where
  | instanceMissing (f : String)
  | binaryMissing (b : String)
deriving DecidableEq, Repr

deriving instance DecidableEq for Except

/-- Outcome of one `solve` call, instrumented with how many times the
executable path was resolved (`get_executable_path()` called) and how
many child processes were spawned during the call. -/
structure SolveOut where
  result : Except RunError (Option Nat)
  resolved : Nat
  spawned : Nat
deriving DecidableEq, Repr

/-- `solve(instance_file)`: assert the instance file exists, resolve the
solver binary and assert it exists, then run it under the timeout.  The
child's exit status is never inspected. -/
def solve (env : Env) (instance_file : String) : SolveOut :=
  if env.isFile instance_file = false then
    { result := Except.error (RunError.instanceMissing instance_file)
      resolved := 0, spawned := 0 }
  else
    let solver_binary := get_executable_path env.system
    if env.isFile solver_binary = false then
      { result := Except.error (RunError.binaryMissing solver_binary)
        resolved := 1, spawned := 0 }
    else
      { result := Except.ok (timingOf env instance_file)
        resolved := 1, spawned := 1 }

/-- The fnmatch test for the fixed pattern `*.cnf`: names whose
character sequence ends in `.cnf` (`*` also matches the empty string
and leading-dot names, as `pathlib`'s glob does). -/
def matchesCnf (name : String) : Bool :=
  ".cnf".data.isSuffixOf name.data

/-- `folder.glob('*.cnf')`: the entries of `folder` whose names match
`*.cnf` (pathlib glob does not descend into subdirectories and does
not sort), each prefixed with the folder path.  A missing or
unreadable folder yields no entries and no error. -/
def glob_cnf (env : Env) (folder : String) : List String :=
  match env.dirListing folder with
  | none => []
  | some names =>
      (names.filter matchesCnf).map (fun n => folder ++ "/" ++ n)

/-- `Path.as_posix()`: path separators rendered as forward slashes
(each backslash replaced by a forward slash, character by character). -/
def as_posix (p : String) : String :=
  String.mk (p.data.map (fun c => if c = '\\' then '/' else c))

/-- `str(solve_time)` for `solve_time : Optional[int]`: Python renders
`None` as the string `None` and an integer in base 10. -/
def str_of_result : Option Nat → String
  | none => "None"
  | some d => toString d

/-- The row `writer.writerow([instance_file.as_posix(), str(solve_time)])`
produces. -/
def rowOf (instance_file : String) (r : Option Nat) : Row :=
  (as_posix instance_file, str_of_result r)

/-- The row the run records for instance `f` when no assertion fires. -/
def renderedRow (env : Env) (f : String) : Row :=
  rowOf f (timingOf env f)

/-- `io.DEFAULT_BUFFER_SIZE`: the size of the block buffer under a
file opened with `open` and default buffering, 8 KiB. -/
def DEFAULT_BUFFER_SIZE : Nat := 8192

/-- The bytes one CSV row occupies in the file: both columns, the comma
delimiter, and the two-character row terminator of `csv.writer`'s
default dialect (all characters here are ASCII). -/
def rowBytes (r : Row) : Nat :=
  r.1.length + r.2.length + 3

/-- Total bytes of a list of rows. -/
def rowsBytes (rs : List Row) : Nat :=
  (rs.map rowBytes).sum

/-- The buffered file object returned by `output_file.open('w')`.
`buffer` holds rows sitting in the in-memory block buffer; `flushed`
holds the rows already written out and visible in the file on disk.
The script never calls `flush`, so buffered rows are written out only
when the block buffer overflows or when the file is closed (by the
`with` block, on both the normal and the exception path).  A process
killed outright loses `buffer`. -/
structure PyFile where
  buffer : List Row
  flushed : List Row
deriving DecidableEq, Repr

/-- `writer.writerow(...)`: hand one row to the buffered file object.
A datum larger than the block buffer is written straight through
(flushing what was buffered first); otherwise, if appending the row
would overflow the block buffer, the buffered rows are written out and
the new row starts a fresh buffer; otherwise the row is only buffered.
CPython's text layer and binary layer are collapsed into this single
block buffer; the exact overflow instants are the only approximation,
and no statement below depends on them beyond the existence of the
buffering. -/
def PyFile.write (f : PyFile) (r : Row) : PyFile :=
  if DEFAULT_BUFFER_SIZE < rowBytes r then
    { buffer := [], flushed := f.flushed ++ f.buffer ++ [r] }
  else if DEFAULT_BUFFER_SIZE < rowsBytes (f.buffer ++ [r]) then
    { buffer := [r], flushed := f.flushed ++ f.buffer }
  else
    { f with buffer := f.buffer ++ [r] }

/-- Closing the file flushes the buffer into the visible contents. -/
def PyFile.close (f : PyFile) : PyFile :=
  { buffer := [], flushed := f.flushed ++ f.buffer }

/-- The rows a concurrent reader, or a post-kill inspection of the disk,
sees. -/
def PyFile.visible (f : PyFile) : List Row :=
  f.flushed

/-- `output_file.open('w', ...)` creates or truncates the file. -/
def PyFile.emptyNew : PyFile :=
  { buffer := [], flushed := [] }

/-- State threaded through the instance loop of `main`, instrumented
with resolution and spawn counters. -/
structure LoopState where
  file : PyFile
  resolves : Nat
  spawns : Nat
deriving DecidableEq, Repr

/-- The inner loop of `main`: for each enumerated instance file, call
`solve` and write one row.  An escaping exception aborts the loop
(the `with` block will still close the file). -/
def runLoop (env : Env) : List String → LoopState → LoopState × Option RunError
  | [], st => (st, none)
  | f :: rest, st =>
      let s := solve env f
      let st1 : LoopState :=
        { st with resolves := st.resolves + s.resolved, spawns := st.spawns + s.spawned }
      match s.result with
      | Except.error e => (st1, some e)
      | Except.ok r => runLoop env rest { st1 with file := st1.file.write (rowOf f r) }

/-- The instance files `main` iterates over: for each folder in the
order supplied, the `*.cnf` matches in that folder (tqdm is a
pass-through progress wrapper). -/
def instancesOf (env : Env) (folders : List String) : List String :=
  folders.flatMap (glob_cnf env)

/-- Observable outcome of one `main(folders, output_file)` run.
`fileCreated` records that the log file was created (the `open('w')`
happens before any instance is attempted; the model assumes the parent
directory `mkdir` succeeds).  `finalLog` is the file contents after the
`with` block has closed the file, on the normal and on the exception
path alike. -/
structure MainOutcome where
  fileCreated : Bool
  finalLog : List Row
  err : Option RunError
  resolves : Nat
  spawns : Nat
deriving DecidableEq, Repr

/-- `main(folders, output_file)`. -/
def main (env : Env) (folders : List String) : MainOutcome :=
  let files := instancesOf env folders
  let out := runLoop env files { file := PyFile.emptyNew, resolves := 0, spawns := 0 }
  { fileCreated := true
    finalLog := out.1.file.close.visible
    err := out.2
    resolves := out.1.resolves
    spawns := out.1.spawns }

/-- The process exit status: an uncaught `AssertionError` terminates the
interpreter with a non-zero status; normal completion exits zero. -/
def exitStatus (o : MainOutcome) : Nat :=
  if o.err.isSome then 1 else 0

/-- The file states after each recorded row, i.e. the states of the log
file at the moments the loop moves on to the next instance. -/
def runLoopTrace (env : Env) : List String → PyFile → List PyFile
  | [], _ => []
  | f :: rest, file =>
      match (solve env f).result with
      | Except.error _ => []
      | Except.ok r =>
          let file1 := file.write (rowOf f r)
          file1 :: runLoopTrace env rest file1

/-- `Path(f"./results/benchmark-{int(time.time())}.csv")`: the default
output path built from the POSIX time truncated to whole seconds. -/
def defaultOutputFile (epochSeconds : Nat) : String :=
  "./results/benchmark-" ++ toString epochSeconds ++ ".csv"

/-- The default output path of a run started `startMs` milliseconds
after the epoch: `int(time.time())` truncates the float seconds. -/
def defaultPathOfRun (startMs : Nat) : String :=
  defaultOutputFile (startMs / 1000)

/-- The rows one occurrence of `folder` contributes to an error-free
run. -/
def folderRows (env : Env) (folder : String) : List Row :=
  (glob_cnf env folder).map (renderedRow env)

/-! ### Concrete environments used as witnesses and counterexamples -/

/-- A healthy host: the solver binary exists, `setA` holds `1.cnf`
(child exits after 5.2 ms) and `2.cnf` (child exits after 0.7 ms),
`setB` holds `1.cnf` (child exits after 5 ms). -/
def envOK : Env :=
  { isFile := fun p =>
      p == SOLVER_BINARY || p == "setA/1.cnf" || p == "setA/2.cnf" || p == "setB/1.cnf"
    dirListing := fun d =>
      if d == "setA" then some ["1.cnf", "2.cnf"]
      else if d == "setB" then some ["1.cnf"]
      else none
    system := "Linux"
    childNs := fun f =>
      if f == "setA/1.cnf" then some 5200000
      else if f == "setA/2.cnf" then some 700000
      else if f == "setB/1.cnf" then some 5000000
      else none
    childExit := fun _ => 0 }

/-- A host on which `hard/slow.cnf` would need 31 s (past the 30 s
deadline) while `hard/ok.cnf` exits after 4 ms. -/
def envTimeout : Env :=
  { isFile := fun p =>
      p == SOLVER_BINARY || p == "hard/slow.cnf" || p == "hard/ok.cnf"
    dirListing := fun d =>
      if d == "hard" then some ["slow.cnf", "ok.cnf"] else none
    system := "Linux"
    childNs := fun f =>
      if f == "hard/slow.cnf" then some 31000000000
      else if f == "hard/ok.cnf" then some 4000000
      else none
    childExit := fun _ => 0 }

/-- A host on which the solver binary does not exist; `one` holds a
single instance file, `emptydir` exists but holds no `*.cnf` entries. -/
def envNoExec : Env :=
  { isFile := fun p => p == "one/b.cnf"
    dirListing := fun d =>
      if d == "one" then some ["b.cnf"]
      else if d == "emptydir" then some []
      else none
    system := "Linux"
    childNs := fun _ => none
    childExit := fun _ => 0 }

/-- A host on which the directory `missing` does not exist (its listing
is unavailable) while `good` holds `a.cnf`, solved in 2.5 ms. -/
def envMissingDir : Env :=
  { isFile := fun p => p == SOLVER_BINARY || p == "good/a.cnf"
    dirListing := fun d => if d == "good" then some ["a.cnf"] else none
    system := "Linux"
    childNs := fun f => if f == "good/a.cnf" then some 2500000 else none
    childExit := fun _ => 0 }

end Bench

namespace Bench

theorem solve_ok_elim (env : Env) (f : String) (r : Option Nat)
    (h : (solve env f).result = Except.ok r) :
    solve env f =
      { result := Except.ok (timingOf env f), resolved := 1, spawned := 1 } := by
  unfold solve at h ⊢
  cases hf : env.isFile f with
  | false => simp [hf] at h
  | true =>
    cases hb : env.isFile (get_executable_path env.system) with
    | false => simp [hf, hb] at h
    | true => simp [hf, hb]

theorem PyFile.write_content (f : PyFile) (r : Row) :
    (f.write r).flushed ++ (f.write r).buffer = (f.flushed ++ f.buffer) ++ [r] := by
  unfold PyFile.write
  split
  · simp
  · split
    · simp
    · simp

theorem write_fresh_row_stays_buffered (f : PyFile) (r : Row)
    (h : rowBytes r ≤ DEFAULT_BUFFER_SIZE) :
    (∃ pre, (f.write r).buffer = pre ++ [r])
    ∧ ((f.write r).visible = f.visible ∨ (f.write r).visible = f.visible ++ f.buffer) := by
  unfold PyFile.write PyFile.visible
  rw [if_neg (by omega)]
  split
  · exact ⟨⟨[], rfl⟩, Or.inr rfl⟩
  · exact ⟨⟨f.buffer, rfl⟩, Or.inl rfl⟩

theorem runLoop_none_spec (env : Env) :
    ∀ (files : List String) (st : LoopState),
      (runLoop env files st).2 = none →
      (runLoop env files st).1.file.flushed ++ (runLoop env files st).1.file.buffer
          = (st.file.flushed ++ st.file.buffer) ++ files.map (renderedRow env)
      ∧ (runLoop env files st).1.resolves = st.resolves + files.length
      ∧ (runLoop env files st).1.spawns = st.spawns + files.length := by
  intro files
  induction files with
  | nil => intro st h; simp [runLoop]
  | cons f rest ih =>
    intro st h
    cases hres : (solve env f).result with
    | error e =>
      simp only [runLoop, hres] at h
      exact Option.noConfusion h
    | ok r =>
      have hs := solve_ok_elim env f r hres
      simp only [runLoop, hs] at h ⊢
      obtain ⟨b1, b3, b4⟩ := ih _ h
      rw [b1, b3, b4]
      dsimp only [List.length_cons]
      refine ⟨?_, by omega, by omega⟩
      rw [PyFile.write_content]
      simp [renderedRow, List.append_assoc]


theorem runLoop_error_first (env : Env) (f : String) (rest : List String)
    (st : LoopState) (e : RunError)
    (h : (solve env f).result = Except.error e) :
    runLoop env (f :: rest) st =
      ({ st with resolves := st.resolves + (solve env f).resolved,
                 spawns := st.spawns + (solve env f).spawned }, some e) := by
  simp only [runLoop, h]

theorem solve_binary_missing (env : Env) (f : String)
    (hb : env.isFile (get_executable_path env.system) = false) :
    ∃ e, (solve env f).result = Except.error e ∧ (solve env f).spawned = 0 := by
  unfold solve
  cases hf : env.isFile f with
  | false => exact ⟨RunError.instanceMissing f, by simp [hf], by simp [hf]⟩
  | true => exact ⟨RunError.binaryMissing (get_executable_path env.system), by simp [hf, hb], by simp [hf, hb]⟩


theorem main_log_of_no_error (env : Env) (folders : List String)
    (h : (Bench.main env folders).err = none) :
    (Bench.main env folders).finalLog = (instancesOf env folders).map (renderedRow env) := by
  have h2 : (runLoop env (instancesOf env folders)
      { file := PyFile.emptyNew, resolves := 0, spawns := 0 }).2 = none := by
    simpa [main] using h
  obtain ⟨b1, _, _⟩ := runLoop_none_spec env (instancesOf env folders) _ h2
  simp only [main, PyFile.close, PyFile.visible]
  rw [b1]
  simp [PyFile.emptyNew]

theorem map_render_eq_folderRows (env : Env) :
    ∀ l : List String, (l.flatMap (glob_cnf env)).map (renderedRow env) = l.flatMap (folderRows env) := by
  intro l
  induction l with
  | nil => rfl
  | cons a t ih => simp only [List.flatMap_cons, List.map_append, ih]; rfl

/-- Claim C2: for every run with no fatal error, the output log holds exactly
one row per instance file enumerated across all input directories, in exactly
the enumeration order (no instance skipped, duplicated or reordered). -/
theorem C2_one_row_per_instance_in_order (env : Env) (folders : List String)
    (h : (Bench.main env folders).err = none) :
    (Bench.main env folders).finalLog = (instancesOf env folders).map (renderedRow env)
    ∧ (Bench.main env folders).finalLog.length = (instancesOf env folders).length := by
  have hlog := main_log_of_no_error env folders h
  exact ⟨hlog, by simp [hlog]⟩

/-- Witness for C2 at a concrete healthy host: the run over `setA` and
`setB` completes without error and records its three instances in order. -/
theorem C2_witness :
    (Bench.main envOK ["setA", "setB"]).err = none
    ∧ (Bench.main envOK ["setA", "setB"]).finalLog =
        (instancesOf envOK ["setA", "setB"]).map (renderedRow envOK) :=
  ⟨by decide, (C2_one_row_per_instance_in_order envOK ["setA", "setB"] (by decide)).1⟩

/-- Claim C4: the timeout passed to the child wait is the fixed constant 30
seconds; whenever the child exits within it after `ns` nanoseconds — the exit
status is never inspected — `solve` returns the elapsed wall-clock time
floored to whole milliseconds (a `Nat`, hence non-negative), never the
timeout marker. -/
theorem C4_duration_on_timely_exit (env : Env) (f : String) (ns : Nat)
    (h1 : env.isFile f = true)
    (h2 : env.isFile (get_executable_path env.system) = true)
    (h3 : env.childNs f = some ns)
    (h4 : ns < TIMEOUT_seconds * 1000000000) :
    TIMEOUT_seconds = 30
    ∧ (solve env f).result = Except.ok (some (ns / 1000000))
    ∧ (solve env f).result ≠ Except.ok none
    ∧ (ns / 1000000) * 1000000 ≤ ns
    ∧ ns < ((ns / 1000000) + 1) * 1000000
    ∧ (∀ ec : String → Int, solve { env with childExit := ec } f = solve env f) := by
  have ht : timingOf env f = some (ns / 1000000) := by
    simp [timingOf, runWithTimeout, h3, h4]
  have hr : (solve env f).result = Except.ok (some (ns / 1000000)) := by
    simp [solve, h1, h2, ht]
  have hdm := Nat.div_add_mod ns 1000000
  have hlt : ns % 1000000 < 1000000 := Nat.mod_lt ns (by decide)
  refine ⟨rfl, hr, by rw [hr]; simp, by omega, by omega, fun ec => rfl⟩

/-- Witness for C4: on the healthy host, `setA/1.cnf` exits after
5.2 ms and the recorded duration is 5 ms. -/
theorem C4_witness :
    envOK.childNs "setA/1.cnf" = some 5200000
    ∧ (solve envOK "setA/1.cnf").result = Except.ok (some 5) :=
  ⟨by decide,
    (C4_duration_on_timely_exit envOK "setA/1.cnf" 5200000
      (by decide) (by decide) (by decide) (by decide)).2.1⟩

/-- Claim C10: the duration is the floor division of the non-negative
nanosecond difference by 1,000,000, so a child exiting in strictly less
than one millisecond is recorded with duration exactly 0 (never a
negative value: durations live in `Nat`). -/
theorem C10_sub_millisecond_rounds_to_zero (env : Env) (f : String) (ns : Nat)
    (h1 : env.isFile f = true)
    (h2 : env.isFile (get_executable_path env.system) = true)
    (h3 : env.childNs f = some ns)
    (h4 : ns < 1000000) :
    (solve env f).result = Except.ok (some 0)
    ∧ renderedRow env f = (as_posix f, "0") := by
  have h5 : ns < TIMEOUT_seconds * 1000000000 := by
    have : (1000000 : Nat) < TIMEOUT_seconds * 1000000000 := by decide
    omega
  have ht : timingOf env f = some 0 := by
    simp [timingOf, runWithTimeout, h3, h5, Nat.div_eq_of_lt h4]
  refine ⟨by simp [solve, h1, h2, ht], ?_⟩
  have h0 : str_of_result (some 0) = "0" := by decide
  simp [renderedRow, rowOf, ht, h0]

/-- Witness for C10: `setA/2.cnf` exits after 0.7 ms and its row carries
the duration string 0. -/
theorem C10_witness :
    envOK.childNs "setA/2.cnf" = some 700000
    ∧ (solve envOK "setA/2.cnf").result = Except.ok (some 0) :=
  ⟨by decide,
    (C10_sub_millisecond_rounds_to_zero envOK "setA/2.cnf" 700000
      (by decide) (by decide) (by decide) (by decide)).1⟩


/-- Claim C1 (code behaviour at the failing input): when `hard/slow.cnf`
does not finish within the deadline, the run does continue to the next
instance and exits zero, but the second column of the timeout row is the
four-character string `None` — the Python rendering `str(None)` of the
result — not the single placeholder `-` promised by the docstring of
`main`. -/
theorem C1_timeout_row_is_str_None :
    (Bench.main envTimeout ["hard"]).finalLog =
      [("hard/slow.cnf", "None"), ("hard/ok.cnf", "4")]
    ∧ (Bench.main envTimeout ["hard"]).err = none
    ∧ exitStatus (Bench.main envTimeout ["hard"]) = 0
    ∧ str_of_result none = "None"
    ∧ str_of_result none ≠ "-" := by
  refine ⟨by decide, by decide, by decide, by decide, by decide⟩

/-- Counterexample to claim C3 as stated: on a host whose solver binary
does not exist, a run over a directory holding no instance files never
reaches the existence assertion (it sits inside `solve`) and exits zero,
not non-zero. -/
theorem C3_counterexample :
    envNoExec.isFile (get_executable_path envNoExec.system) = false
    ∧ instancesOf envNoExec ["emptydir"] = []
    ∧ exitStatus (Bench.main envNoExec ["emptydir"]) = 0 := by
  refine ⟨by decide, by decide, by decide⟩

/-- Claim C3 as amended: if the resolved executable path is not an
existing file and at least one instance is enumerated, the run aborts
with a non-zero exit, the created log contains zero rows, and no child
process is ever spawned.  (With zero instances enumerated the assertion
is never reached and the run exits zero, still with zero rows and no
child.) -/
theorem C3_amended_missing_binary_aborts (env : Env) (folders : List String)
    (hb : env.isFile (get_executable_path env.system) = false)
    (hne : instancesOf env folders ≠ []) :
    exitStatus (Bench.main env folders) = 1
    ∧ (Bench.main env folders).finalLog = []
    ∧ (Bench.main env folders).spawns = 0
    ∧ (Bench.main env folders).fileCreated = true := by
  obtain ⟨f, rest, hfr⟩ : ∃ f rest, instancesOf env folders = f :: rest := by
    cases hI : instancesOf env folders with
    | nil => exact absurd hI hne
    | cons a l => exact ⟨a, l, rfl⟩
  obtain ⟨e, he, hsp⟩ := solve_binary_missing env f hb
  have hrl := runLoop_error_first env f rest
    { file := PyFile.emptyNew, resolves := 0, spawns := 0 } e he
  simp only [main, exitStatus, hfr, hrl, PyFile.close, PyFile.visible]
  simp [PyFile.emptyNew, hsp]

/-- Witness for the amended C3: the binary is missing and directory
`one` holds one instance, so the run aborts with exit status 1, an empty
log and no spawned child. -/
theorem C3_amended_witness :
    envNoExec.isFile (get_executable_path envNoExec.system) = false
    ∧ instancesOf envNoExec ["one"] ≠ []
    ∧ exitStatus (Bench.main envNoExec ["one"]) = 1
    ∧ (Bench.main envNoExec ["one"]).finalLog = [] :=
  ⟨by decide, by decide,
    (C3_amended_missing_binary_aborts envNoExec ["one"] (by decide) (by decide)).1,
    (C3_amended_missing_binary_aborts envNoExec ["one"] (by decide) (by decide)).2.1⟩

/-- Counterexample to claim C5 as stated: with the directory `missing`
absent from the filesystem, the run over `[missing, good]` does not
abort — it exits zero and still records the row of `good/a.cnf`. -/
theorem C5_counterexample :
    envMissingDir.dirListing "missing" = none
    ∧ (Bench.main envMissingDir ["missing", "good"]).err = none
    ∧ (Bench.main envMissingDir ["missing", "good"]).finalLog = [("good/a.cnf", "2")] := by
  refine ⟨by decide, by decide, by decide⟩

/-- Claim C5 as amended: a missing or unreadable input directory is not
fatal; `Path.glob` silently produces no entries for it, so the directory
contributes zero instances and the whole run behaves exactly as if that
directory had not been supplied. -/
theorem C5_amended_missing_dir_contributes_nothing (env : Env) (d : String)
    (rest : List String) (h : env.dirListing d = none) :
    glob_cnf env d = [] ∧ Bench.main env (d :: rest) = Bench.main env rest := by
  have hg : glob_cnf env d = [] := by simp [glob_cnf, h]
  have hi : instancesOf env (d :: rest) = instancesOf env rest := by
    simp [instancesOf, hg]
  exact ⟨hg, by simp [main, hi]⟩

/-- Witness for the amended C5: the run over `[missing, good]` equals
the run over `[good]` alone. -/
theorem C5_amended_witness :
    envMissingDir.dirListing "missing" = none
    ∧ Bench.main envMissingDir ["missing", "good"] = Bench.main envMissingDir ["good"] :=
  ⟨by decide,
    (C5_amended_missing_dir_contributes_nothing envMissingDir "missing" ["good"] (by decide)).2⟩

/-- Counterexample to claim C6 as stated: on the healthy host, after the
row of `setA/1.cnf` has been produced and before `setA/2.cnf` is
invoked, the visible file contents are still empty — the rows are far
smaller than the block buffer, so the produced row sits in the
unflushed buffer, and killing the run at that point loses it. -/
theorem C6_counterexample :
    (runLoopTrace envOK (instancesOf envOK ["setA"]) PyFile.emptyNew).map PyFile.visible
      = [[], []]
    ∧ (runLoopTrace envOK (instancesOf envOK ["setA"]) PyFile.emptyNew).map PyFile.buffer
      = [[("setA/1.cnf", "5")], [("setA/1.cnf", "5"), ("setA/2.cnf", "0")]] := by
  refine ⟨by decide, by decide⟩

/-- Claim C6 as amended: rows are handed to a block-buffered file and are
not made visible per row.  A just-produced row no larger than the block
buffer always remains in the in-memory buffer immediately after its
write (so it is not yet visible when the next instance is invoked), and
a write makes earlier rows visible only by flushing the previously
buffered block; no row is lost or reordered — in an error-free run the
visible part plus the buffered tail is exactly the produced rows, a
mid-run kill loses precisely the buffered tail, and the close performed
by the `with` block makes every produced row visible in the final
log. -/
theorem C6_amended_rows_buffered_until_flush_or_close (env : Env) (folders : List String)
    (h : (Bench.main env folders).err = none) :
    (∀ (f : PyFile) (r : Row), rowBytes r ≤ DEFAULT_BUFFER_SIZE →
        (∃ pre, (f.write r).buffer = pre ++ [r])
        ∧ ((f.write r).visible = f.visible ∨ (f.write r).visible = f.visible ++ f.buffer))
    ∧ (∀ f : PyFile, f.close.visible = f.visible ++ f.buffer)
    ∧ (runLoop env (instancesOf env folders)
          { file := PyFile.emptyNew, resolves := 0, spawns := 0 }).1.file.visible
        ++ (runLoop env (instancesOf env folders)
          { file := PyFile.emptyNew, resolves := 0, spawns := 0 }).1.file.buffer
        = (instancesOf env folders).map (renderedRow env)
    ∧ (Bench.main env folders).finalLog = (instancesOf env folders).map (renderedRow env) := by
  have h2 : (runLoop env (instancesOf env folders)
      { file := PyFile.emptyNew, resolves := 0, spawns := 0 }).2 = none := by
    simpa [main] using h
  obtain ⟨b1, _, _⟩ := runLoop_none_spec env (instancesOf env folders) _ h2
  refine ⟨fun f r hr => write_fresh_row_stays_buffered f r hr,
    fun f => rfl, ?_, main_log_of_no_error env folders h⟩
  simp only [PyFile.visible]
  rw [b1]
  simp [PyFile.emptyNew]

/-- Witness for the amended C6 on the healthy host: the run is
error-free; the first row (14 bytes) fits the block buffer and sits in
the buffer of the freshly opened file right after its write, while the
final log after close holds all three rows. -/
theorem C6_amended_witness :
    (Bench.main envOK ["setA", "setB"]).err = none
    ∧ rowBytes ("setA/1.cnf", "5") ≤ DEFAULT_BUFFER_SIZE
    ∧ ((∃ pre, (PyFile.emptyNew.write ("setA/1.cnf", "5")).buffer = pre ++ [("setA/1.cnf", "5")])
        ∧ ((PyFile.emptyNew.write ("setA/1.cnf", "5")).visible = PyFile.emptyNew.visible
            ∨ (PyFile.emptyNew.write ("setA/1.cnf", "5")).visible
                = PyFile.emptyNew.visible ++ PyFile.emptyNew.buffer))
    ∧ (Bench.main envOK ["setA", "setB"]).finalLog =
        (instancesOf envOK ["setA", "setB"]).map (renderedRow envOK) :=
  ⟨by decide, by decide,
    (C6_amended_rows_buffered_until_flush_or_close envOK ["setA", "setB"] (by decide)).1
      PyFile.emptyNew ("setA/1.cnf", "5") (by decide),
    (C6_amended_rows_buffered_until_flush_or_close envOK ["setA", "setB"] (by decide)).2.2.2⟩

/-- Counterexample to claim C7 as stated: in a single error-free run
over `setA` (two instances), `get_executable_path` is called twice —
once inside each `solve` call — not exactly once per run. -/
theorem C7_counterexample :
    (Bench.main envOK ["setA"]).err = none
    ∧ (instancesOf envOK ["setA"]).length = 2
    ∧ (Bench.main envOK ["setA"]).resolves = 2 := by
  refine ⟨by decide, by decide, by decide⟩

/-- Claim C7 as amended: the executable path is resolved and its
existence asserted inside `solve`, once per instance attempted — an
error-free run performs exactly as many resolutions as it has
instances.  Resolution is a pure function of the platform, so every
instance still uses the same path, and the first failed validation
aborts the run. -/
theorem C7_amended_resolved_once_per_instance (env : Env) (folders : List String)
    (h : (Bench.main env folders).err = none) :
    (Bench.main env folders).resolves = (instancesOf env folders).length := by
  have h2 : (runLoop env (instancesOf env folders)
      { file := PyFile.emptyNew, resolves := 0, spawns := 0 }).2 = none := by
    simpa [main] using h
  obtain ⟨_, b3, _⟩ := runLoop_none_spec env (instancesOf env folders) _ h2
  simp only [main]
  rw [b3]
  simp

/-- Witness for the amended C7: the error-free run over `setA` resolves
the path exactly twice, matching its two instances. -/
theorem C7_amended_witness :
    (Bench.main envOK ["setA"]).err = none
    ∧ (Bench.main envOK ["setA"]).resolves = (instancesOf envOK ["setA"]).length :=
  ⟨by decide, C7_amended_resolved_once_per_instance envOK ["setA"] (by decide)⟩

/-- Counterexample to claim C8 as stated: two distinct runs started 250 ms
and 750 ms into the same wall-clock second are different runs, yet
`int(time.time())` truncates both start times to the same whole second
and both default output paths coincide. -/
theorem C8_counterexample :
    defaultPathOfRun 1000250 = defaultPathOfRun 1000750
    ∧ (1000250 : Nat) ≠ 1000750 := by
  refine ⟨by decide, by decide⟩

/-- Claim C8 as amended: the default output path incorporates the start
time truncated to whole seconds, so any two runs started within the same
wall-clock second receive the same default path and write to the same
log file; only runs whose truncated timestamps differ can get distinct
paths. -/
theorem C8_amended_same_second_collides (startMs1 startMs2 : Nat)
    (h : startMs1 / 1000 = startMs2 / 1000) :
    defaultPathOfRun startMs1 = defaultPathOfRun startMs2 := by
  simp [defaultPathOfRun, h]

/-- Witness for the amended C8 at the two concrete start instants of the
counterexample. -/
theorem C8_amended_witness :
    (1000250 : Nat) / 1000 = 1000750 / 1000
    ∧ defaultPathOfRun 1000250 = defaultPathOfRun 1000750 :=
  ⟨by decide, C8_amended_same_second_collides 1000250 1000750 (by decide)⟩

/-- Claim C9: the folders list is processed positionally with no
deduplication — in an error-free run each occurrence of a directory
contributes its full block of rows at its position, so a directory
supplied twice is invoked and recorded twice. -/
theorem C9_duplicate_folder_duplicate_rows (env : Env) (ds es fs : List String)
    (d : String)
    (h : (Bench.main env (ds ++ d :: es ++ d :: fs)).err = none) :
    (Bench.main env (ds ++ d :: es ++ d :: fs)).finalLog =
      ds.flatMap (folderRows env) ++ folderRows env d ++ es.flatMap (folderRows env)
        ++ folderRows env d ++ fs.flatMap (folderRows env) := by
  have hlog := main_log_of_no_error env (ds ++ d :: es ++ d :: fs) h
  rw [hlog]
  simp only [instancesOf]
  rw [map_render_eq_folderRows]
  simp [List.flatMap_append, List.flatMap_cons, List.append_assoc]

/-- Witness for C9: supplying `setB` twice records its single instance
twice, once per occurrence. -/
theorem C9_witness :
    (Bench.main envOK (([] : List String) ++ "setB" :: ([] : List String) ++ "setB" :: ([] : List String))).err = none
    ∧ (Bench.main envOK (([] : List String) ++ "setB" :: ([] : List String) ++ "setB" :: ([] : List String))).finalLog =
        ([] : List String).flatMap (folderRows envOK) ++ folderRows envOK "setB"
          ++ ([] : List String).flatMap (folderRows envOK) ++ folderRows envOK "setB"
          ++ ([] : List String).flatMap (folderRows envOK) :=
  ⟨by decide, C9_duplicate_folder_duplicate_rows envOK [] [] [] "setB" (by decide)⟩

end Bench
